import Mathlib

/-
  Verification of the IvantiDataLoader repository (Deda Ingestor and
  Ivanti Data Loader subsystems) against its natural-language specification.

  The Python source is shallowly embedded: pure logic becomes Lean
  functions, mutable accumulators become explicit state passing, fallible
  code returns Except, Python Decimal/float arithmetic used by the claims
  is represented by Rat (all claim-relevant values are exact decimals),
  and Python dicts become association lists with insertion-order update
  semantics.
-/

/-! ## Shared Python-like helpers

Python string helpers are re-implemented structurally (rather than through
library functions) so that every definition reduces in the kernel.
They model the exact semantics of the Python methods used by the source:
`str.split(sep)`, `str.strip()`, `str.upper()`, `str.lower()`. -/

/-- Python `str.split(sep)` for a single-character separator: splits at every
occurrence, keeping empty segments (so `"a||b".split("|") == ["a", "", "b"]`). -/
def pySplitChars (sep : Char) : List Char → List Char → List String
  | [], acc => [String.mk acc.reverse]
  | c :: cs, acc =>
      if c = sep then String.mk acc.reverse :: pySplitChars sep cs []
      else pySplitChars sep cs (c :: acc)

/-- Python `s.split(sep)` with a one-character separator. -/
def pySplit (s : String) (sep : Char) : List String :=
  pySplitChars sep s.data []

/-- Python `str.strip()`: removes leading and trailing whitespace. -/
def pyStrip (s : String) : String :=
  String.mk (((s.data.dropWhile Char.isWhitespace).reverse.dropWhile
    Char.isWhitespace).reverse)

/-- Python `str.upper()` restricted to ASCII case mapping. -/
def pyUpper (s : String) : String := String.mk (s.data.map Char.toUpper)

/-- Python `str.lower()` restricted to ASCII case mapping. -/
def pyLower (s : String) : String := String.mk (s.data.map Char.toLower)

/-- Association-list lookup, modelling Python dict indexing
(`d[k]` / `d.get(k)`); Python dict keys are unique, so first match wins. -/
def pyLookup {V : Type} (d : List (String × V)) (k : String) : Option V :=
  match d with
  | [] => none
  | (k', v) :: rest => if k' = k then some v else pyLookup rest k

/-- Python `k in d` membership test on a dict. -/
def pyMem {V : Type} (d : List (String × V)) (k : String) : Bool :=
  (pyLookup d k).isSome

/-- Python dict assignment `d[k] = v`: replaces the value in place when the
key exists (keeping its position), otherwise appends the new entry, exactly
matching Python dict insertion-order semantics. -/
def pyUpsert {V : Type} (d : List (String × V)) (k : String) (v : V) :
    List (String × V) :=
  match d with
  | [] => [(k, v)]
  | (k', v') :: rest =>
      if k' = k then (k, v) :: rest else (k', v') :: pyUpsert rest k v

/-! ## Deda Ingestor: SyncResult (claim C1)

`SyncResult` is declared in `core/models.py` with its counter fields; its
`record_success` / `record_failure` / `record_skip` / `success_rate`
members are not present under `src/` although `product_service.py`,
`ivanti_repository.py` and the test suite all invoke them. -/

namespace DedaIngestor

/-- `SyncResult` counters, from `core/models.py` lines 184-192 (the
`errors` dict maps an identifier to an error message; timestamps are not
needed by any claim and are omitted). -/
structure SyncResult where
  total_processed : Nat := 0
  successful_syncs : Nat := 0
  failed_syncs : Nat := 0
  skipped_syncs : Nat := 0
  errors : List (String × String) := []
deriving DecidableEq

/-- Modelled from the spec: `SyncResult.record_success` is absent from
`core/models.py`; per spec section 3, every recorded outcome increments
`total_processed` by exactly one and a success increments
`successful_syncs`. -/
def SyncResult.record_success (r : SyncResult) : SyncResult :=
  { r with total_processed := r.total_processed + 1,
           successful_syncs := r.successful_syncs + 1 }

/-- Modelled from the spec: `SyncResult.record_failure` is absent from
`core/models.py`; per spec section 3 it increments `total_processed` and
`failed_syncs` and records the error message against the identifier. -/
def SyncResult.record_failure (r : SyncResult) (id msg : String) : SyncResult :=
  { r with total_processed := r.total_processed + 1,
           failed_syncs := r.failed_syncs + 1,
           errors := pyUpsert r.errors id msg }

/-- Modelled from the spec: `SyncResult.record_skip` is absent from
`core/models.py`; per spec section 3 it increments `total_processed` and
`skipped_syncs`. -/
def SyncResult.record_skip (r : SyncResult) : SyncResult :=
  { r with total_processed := r.total_processed + 1,
           skipped_syncs := r.skipped_syncs + 1 }

/-- Modelled from the spec: `SyncResult.success_rate` is absent from
`core/models.py`; per spec section 3 it is 0 when `total_processed` is 0,
else `successful_syncs / total_processed * 100`. -/
def SyncResult.success_rate (r : SyncResult) : Rat :=
  if r.total_processed = 0 then 0
  else (r.successful_syncs : Rat) / (r.total_processed : Rat) * 100

/-- One call in a `SyncResult` call sequence. -/
inductive SyncEvent where
  | success
  | failure (id msg : String)
  | skip
deriving DecidableEq

/-- Dispatch one recorded outcome. -/
def SyncResult.record (r : SyncResult) : SyncEvent → SyncResult
  | .success => r.record_success
  | .failure id msg => r.record_failure id msg
  | .skip => r.record_skip

/-- Run a call sequence on a freshly constructed `SyncResult`. -/
def SyncResult.run (evs : List SyncEvent) : SyncResult :=
  evs.foldl SyncResult.record {}

end DedaIngestor

/-! ## Ivanti Data Loader: LoadResult (claims C1 and C9)

Embedded from `ivanti_data_loader/core/base.py` lines 79-121. -/

namespace DataLoader

/-- `LoadResult` from `core/base.py` (timestamps omitted; no claim uses
them). `errors` is a Python dict keyed by identifier. -/
structure LoadResult where
  total_records : Nat := 0
  successful_loads : Nat := 0
  failed_loads : Nat := 0
  skipped_loads : Nat := 0
  errors : List (String × String) := []
deriving DecidableEq

/-- `LoadResult.record_success` from `core/base.py` lines 89-92. -/
def LoadResult.record_success (r : LoadResult) : LoadResult :=
  { r with total_records := r.total_records + 1,
           successful_loads := r.successful_loads + 1 }

/-- `LoadResult.record_failure` from `core/base.py` lines 94-98:
`self.errors[identifier] = error` overwrites any previous message for the
same identifier. -/
def LoadResult.record_failure (r : LoadResult) (id msg : String) : LoadResult :=
  { r with total_records := r.total_records + 1,
           failed_loads := r.failed_loads + 1,
           errors := pyUpsert r.errors id msg }

/-- `LoadResult.record_skip` from `core/base.py` lines 100-103. -/
def LoadResult.record_skip (r : LoadResult) : LoadResult :=
  { r with total_records := r.total_records + 1,
           skipped_loads := r.skipped_loads + 1 }

/-- `LoadResult.success_rate` from `core/base.py` lines 116-121. -/
def LoadResult.success_rate (r : LoadResult) : Rat :=
  if r.total_records = 0 then 0
  else (r.successful_loads : Rat) / (r.total_records : Rat) * 100

/-- One call in a `LoadResult` call sequence. -/
inductive LoadEvent where
  | success
  | failure (id msg : String)
  | skip
deriving DecidableEq

/-- Dispatch one recorded outcome. -/
def LoadResult.record (r : LoadResult) : LoadEvent → LoadResult
  | .success => r.record_success
  | .failure id msg => r.record_failure id msg
  | .skip => r.record_skip

/-- Run a call sequence on a freshly constructed `LoadResult`. -/
def LoadResult.run (evs : List LoadEvent) : LoadResult :=
  evs.foldl LoadResult.record {}

end DataLoader

/-! ### Claim C1 -/

/-- Sum invariant holds for every `SyncResult` reachable from a fresh
accumulator. -/
theorem DedaIngestor.syncResult_run_invariant (evs : List DedaIngestor.SyncEvent) :
    (DedaIngestor.SyncResult.run evs).successful_syncs
      + (DedaIngestor.SyncResult.run evs).failed_syncs
      + (DedaIngestor.SyncResult.run evs).skipped_syncs
      = (DedaIngestor.SyncResult.run evs).total_processed
    ∧ (DedaIngestor.SyncResult.run evs).total_processed = evs.length := by
  induction evs using List.reverseRecOn with
  | nil => exact ⟨rfl, rfl⟩
  | append_singleton evs e ih =>
      obtain ⟨h1, h2⟩ := ih
      cases e <;>
        simp [DedaIngestor.SyncResult.run, DedaIngestor.SyncResult.record,
          DedaIngestor.SyncResult.record_success,
          DedaIngestor.SyncResult.record_failure,
          DedaIngestor.SyncResult.record_skip] at * <;>
        omega

/-- Sum invariant holds for every `LoadResult` reachable from a fresh
accumulator. -/
theorem DataLoader.loadResult_run_invariant (evs : List DataLoader.LoadEvent) :
    (DataLoader.LoadResult.run evs).successful_loads
      + (DataLoader.LoadResult.run evs).failed_loads
      + (DataLoader.LoadResult.run evs).skipped_loads
      = (DataLoader.LoadResult.run evs).total_records
    ∧ (DataLoader.LoadResult.run evs).total_records = evs.length := by
  induction evs using List.reverseRecOn with
  | nil => exact ⟨rfl, rfl⟩
  | append_singleton evs e ih =>
      obtain ⟨h1, h2⟩ := ih
      cases e <;>
        simp [DataLoader.LoadResult.run, DataLoader.LoadResult.record,
          DataLoader.LoadResult.record_success,
          DataLoader.LoadResult.record_failure,
          DataLoader.LoadResult.record_skip] at * <;>
        omega

/-- C1: for every sequence of `record_success()`, `record_failure(id, msg)`
and `record_skip()` calls on a freshly constructed `SyncResult` or
`LoadResult`, each call increments the total counter by exactly one,
`successful + failed + skipped = total_processed` holds after every call,
and `success_rate` is exactly 0 whenever the total counter is 0 (else
`successful / total * 100`). -/
theorem c1_result_accumulator_invariant :
    (∀ (r : DedaIngestor.SyncResult) (e : DedaIngestor.SyncEvent),
        (r.record e).total_processed = r.total_processed + 1)
    ∧ (∀ evs : List DedaIngestor.SyncEvent,
        (DedaIngestor.SyncResult.run evs).successful_syncs
          + (DedaIngestor.SyncResult.run evs).failed_syncs
          + (DedaIngestor.SyncResult.run evs).skipped_syncs
          = (DedaIngestor.SyncResult.run evs).total_processed)
    ∧ (∀ r : DedaIngestor.SyncResult, r.total_processed = 0 →
        r.success_rate = 0)
    ∧ (∀ r : DedaIngestor.SyncResult, r.total_processed ≠ 0 →
        r.success_rate
          = (r.successful_syncs : Rat) / (r.total_processed : Rat) * 100)
    ∧ (∀ (r : DataLoader.LoadResult) (e : DataLoader.LoadEvent),
        (r.record e).total_records = r.total_records + 1)
    ∧ (∀ evs : List DataLoader.LoadEvent,
        (DataLoader.LoadResult.run evs).successful_loads
          + (DataLoader.LoadResult.run evs).failed_loads
          + (DataLoader.LoadResult.run evs).skipped_loads
          = (DataLoader.LoadResult.run evs).total_records)
    ∧ (∀ r : DataLoader.LoadResult, r.total_records = 0 →
        r.success_rate = 0)
    ∧ (∀ r : DataLoader.LoadResult, r.total_records ≠ 0 →
        r.success_rate
          = (r.successful_loads : Rat) / (r.total_records : Rat) * 100) := by
  refine ⟨?_, ?_, ?_, ?_, ?_, ?_, ?_, ?_⟩
  · intro r e
    cases e <;> rfl
  · intro evs
    exact (DedaIngestor.syncResult_run_invariant evs).1
  · intro r h
    simp [DedaIngestor.SyncResult.success_rate, h]
  · intro r h
    simp [DedaIngestor.SyncResult.success_rate, h]
  · intro r e
    cases e <;> rfl
  · intro evs
    exact (DataLoader.loadResult_run_invariant evs).1
  · intro r h
    simp [DataLoader.LoadResult.success_rate, h]
  · intro r h
    simp [DataLoader.LoadResult.success_rate, h]

/-- C1 witness: the theorem applied to a concrete call sequence and a
concrete accumulator state. -/
theorem c1_result_accumulator_invariant_witness :
    (DedaIngestor.SyncResult.run
        [.success, .failure "P1" "boom", .skip]).successful_syncs
      + (DedaIngestor.SyncResult.run
        [.success, .failure "P1" "boom", .skip]).failed_syncs
      + (DedaIngestor.SyncResult.run
        [.success, .failure "P1" "boom", .skip]).skipped_syncs
      = (DedaIngestor.SyncResult.run
        [.success, .failure "P1" "boom", .skip]).total_processed
    ∧ DedaIngestor.SyncResult.success_rate {} = 0
    ∧ DataLoader.LoadResult.success_rate {} = 0 :=
  ⟨c1_result_accumulator_invariant.2.1
      [.success, .failure "P1" "boom", .skip],
   c1_result_accumulator_invariant.2.2.1 {} rfl,
   c1_result_accumulator_invariant.2.2.2.2.2.2.1 {} rfl⟩

/-! ## Deda Ingestor: retry utility (claim C2)

Embedded from `utils/retry.py` lines 12-131. Delays are exact rationals
(the claim uses `base_delay = 1.0`, `exponential_base = 2.0`, whose
arithmetic is exact in binary floating point, so `Rat` is faithful). The
wrapped operation is a function from the 1-based invocation number to an
outcome; `random.random()` jitter is an oracle parameter. -/

namespace DedaIngestor

/-- `RetryConfig` from `utils/retry.py` lines 12-37. -/
structure RetryConfig where
  max_attempts : Nat := 3
  base_delay : Rat := 1
  max_delay : Rat := 60
  exponential_base : Rat := 2
  jitter : Bool := true

/-- Outcome of one invocation of the wrapped operation: normal return, an
error matching `retryable_exceptions`, or any other exception. -/
inductive Outcome (ε α : Type) where
  | ok (v : α)
  | retryable (e : ε)
  | fatal (e : ε)

/-- Observable behaviour of one run of the wrapped operation: the returned
value or raised error, the number of invocations of the wrapped function,
and the sequence of `time.sleep` delays, in order. -/
structure RetryTrace (ε α : Type) where
  result : Except ε α
  invocations : Nat
  delays : List Rat

/-- The `while attempt <= config.max_attempts` loop of `retry_with_backoff`
(`utils/retry.py` lines 63-127). `fuel = max_attempts - attempt + 1` is the
number of remaining permitted attempts; `jf n` is the value of
`0.5 + random.random()` before the sleep of attempt `n`; `noSuccess` models
the final `raise last_exception or Exception(...)` line, reachable only
when the loop body never runs (`max_attempts = 0`). -/
def retryLoop {ε α : Type} (cfg : RetryConfig) (jf : Nat → Rat)
    (noSuccess : ε) (op : Nat → Outcome ε α) :
    Nat → Nat → List Rat → RetryTrace ε α
  | _, 0, delays => ⟨.error noSuccess, cfg.max_attempts, delays.reverse⟩
  | attempt, fuel + 1, delays =>
      match op attempt with
      | .ok v => ⟨.ok v, attempt, delays.reverse⟩
      | .fatal e => ⟨.error e, attempt, delays.reverse⟩
      | .retryable e =>
          if attempt = cfg.max_attempts then ⟨.error e, attempt, delays.reverse⟩
          else
            let d := min (cfg.base_delay * cfg.exponential_base ^ (attempt - 1))
              cfg.max_delay
            let d := if cfg.jitter then d * jf attempt else d
            retryLoop cfg jf noSuccess op (attempt + 1) fuel (d :: delays)

/-- `retry_with_backoff(retryable_exceptions, config)` applied to one call
of the wrapped function (`utils/retry.py` lines 40-131). -/
def retry_with_backoff {ε α : Type} (cfg : RetryConfig) (jf : Nat → Rat)
    (noSuccess : ε) (op : Nat → Outcome ε α) : RetryTrace ε α :=
  retryLoop cfg jf noSuccess op 1 cfg.max_attempts []

/-- The configuration named by the claim: `RetryConfig(max_attempts=3,
base_delay=1.0, max_delay=60.0, exponential_base=2.0, jitter=False)`. -/
def claimRetryConfig : RetryConfig :=
  { max_attempts := 3, base_delay := 1, max_delay := 60,
    exponential_base := 2, jitter := false }

end DedaIngestor

/-! ### Claim C2 -/

/-- C2: under `RetryConfig(max_attempts=3, base_delay=1.0, max_delay=60.0,
exponential_base=2.0, jitter=False)`: an operation failing with a retryable
error on its first two invocations and succeeding on the third is invoked
exactly three times with delays 1.0s then 2.0s and returns the successful
result; an operation failing with a retryable error on all attempts raises
that error after exactly three invocations, never a fourth; an operation
failing with a non-retryable error raises it after exactly one invocation
with no delay. -/
theorem c2_retry_backoff_bounds {ε α : Type} (jf : Nat → Rat) (noSuccess : ε)
    (op : Nat → DedaIngestor.Outcome ε α) :
    (∀ e1 e2 v, op 1 = .retryable e1 → op 2 = .retryable e2 → op 3 = .ok v →
      DedaIngestor.retry_with_backoff DedaIngestor.claimRetryConfig jf
          noSuccess op = ⟨.ok v, 3, [1, 2]⟩)
    ∧ (∀ e1 e2 e3, op 1 = .retryable e1 → op 2 = .retryable e2 →
        op 3 = .retryable e3 →
      DedaIngestor.retry_with_backoff DedaIngestor.claimRetryConfig jf
          noSuccess op = ⟨.error e3, 3, [1, 2]⟩)
    ∧ (∀ e, op 1 = .fatal e →
      DedaIngestor.retry_with_backoff DedaIngestor.claimRetryConfig jf
          noSuccess op = ⟨.error e, 1, []⟩) := by
  refine ⟨?_, ?_, ?_⟩
  · intro e1 e2 v h1 h2 h3
    simp [DedaIngestor.retry_with_backoff, DedaIngestor.retryLoop,
      DedaIngestor.claimRetryConfig, h1, h2, h3]
    norm_num
  · intro e1 e2 e3 h1 h2 h3
    simp [DedaIngestor.retry_with_backoff, DedaIngestor.retryLoop,
      DedaIngestor.claimRetryConfig, h1, h2, h3]
    norm_num
  · intro e h1
    simp [DedaIngestor.retry_with_backoff, DedaIngestor.retryLoop,
      DedaIngestor.claimRetryConfig, h1]

/-- C2 witness: concrete operations exercising all three branches of the
theorem. -/
theorem c2_retry_backoff_bounds_witness :
    DedaIngestor.retry_with_backoff DedaIngestor.claimRetryConfig
        (fun _ => 1) "no-success"
        (fun n => if n < 3 then .retryable "transient" else .ok 42)
      = ⟨.ok 42, 3, [1, 2]⟩
    ∧ DedaIngestor.retry_with_backoff DedaIngestor.claimRetryConfig
        (fun _ => 1) "no-success"
        (fun n => (.retryable ("always " ++ Nat.repr n) : DedaIngestor.Outcome String Nat))
      = ⟨.error "always 3", 3, [1, 2]⟩
    ∧ DedaIngestor.retry_with_backoff DedaIngestor.claimRetryConfig
        (fun _ => 1) "no-success"
        (fun _ => (.fatal "hard" : DedaIngestor.Outcome String Nat))
      = ⟨.error "hard", 1, []⟩ :=
  ⟨(c2_retry_backoff_bounds (fun _ => 1) "no-success"
      (fun n => if n < 3 then .retryable "transient" else .ok 42)).1
      "transient" "transient" 42 rfl rfl rfl,
   (c2_retry_backoff_bounds (fun _ => 1) "no-success"
      (fun n => .retryable ("always " ++ Nat.repr n))).2.1
      "always 1" "always 2" "always 3" rfl rfl rfl,
   (c2_retry_backoff_bounds (fun _ => 1) "no-success"
      (fun _ => .fatal "hard")).2.2 "hard" rfl⟩

/-! ## Deda Ingestor: domain models (claims C3 and C6)

Embedded from `core/models.py`. Exact-decimal monetary fields are `Rat`;
timestamps are opaque integers (no claim inspects their structure). -/

namespace DedaIngestor

/-- `ProductElement` from `core/models.py` lines 9-31 (field values after
pydantic alias resolution). -/
structure ProductElement where
  length : Int
  product_element : String
  type : String
  startup_days : Int
  resource_unit : String
  resource_unit_qty : Int
  resource_unit_measure : String
  quantity_min : Int
  quantity_max : Int
  max_discount_percentage : Rat
  startup_cost : Rat
  startup_margin : Rat
  startup_price : Rat
  monthly_fee_cost : Rat
  monthly_fee_margin : Rat
  monthly_fee_price : Rat
  extended_description : String
  profit_center : String
  status : String
  notes : Option String := none
  object_reference : Option String := none
deriving DecidableEq

/-- The `valid_statuses` set of `ProductElement.validate_status`
(`core/models.py` line 36). -/
def valid_statuses : List String := ["Active", "Inactive", "Draft"]

/-- `ProductElement.validate_status` from `core/models.py` lines 33-39:
returns the value unchanged when it belongs to `valid_statuses`, otherwise
fails validation (the raised `ValueError` is modelled as `none`). -/
def validate_status (v : String) : Option String :=
  if v ∈ valid_statuses then some v else none

/-- Pydantic construction of a `ProductElement`: the `status` validator
runs on the provided field values; construction succeeds only if it
accepts. -/
def ProductElement.construct (e : ProductElement) : Option ProductElement :=
  (validate_status e.status).map (fun s => { e with status := s })

/-- `Product` from `core/models.py` lines 67-73. -/
structure Product where
  product_id : String
  product_name : String
  product_elements : List ProductElement
  created_at : Int := 0
  updated_at : Option Int := none
deriving DecidableEq

/-- A concrete element, taken from the repository test fixture
`tests/test_product_adapter.py` (`test_to_ivanti_product`). -/
def sampleElement : ProductElement :=
  { length := 50
    product_element := "Elemento Prodotto 1"
    type := "Hardware"
    startup_days := 3
    resource_unit := "Resource Unit Esempio"
    resource_unit_qty := 10
    resource_unit_measure := "Giorni"
    quantity_min := 1
    quantity_max := 100
    max_discount_percentage := 15
    startup_cost := 500
    startup_margin := 20
    startup_price := 600
    monthly_fee_cost := 100
    monthly_fee_margin := 10
    monthly_fee_price := 110
    extended_description := "Descrizione estesa"
    profit_center := "Codice Centro di Profitto"
    status := "Active"
    notes := some "Eventuali note extra"
    object_reference := some "Riferimento oggetto" }

/-- The concrete product of the test fixture. -/
def sampleProduct : Product :=
  { product_id := "P12345"
    product_name := "Nome di esempio del prodotto"
    product_elements := [sampleElement] }

end DedaIngestor

/-! ### Claim C6 -/

/-- C6 counterexample: the claim names the enumerated set
`{Active, Inactive, Discontinued}`, but constructing a `ProductElement`
with status `"Discontinued"` fails validation, and `"Draft"` (outside the
claimed set) succeeds. -/
theorem c6_status_counterexample :
    DedaIngestor.validate_status "Discontinued" = none
    ∧ DedaIngestor.ProductElement.construct
        { DedaIngestor.sampleElement with status := "Discontinued" } = none
    ∧ DedaIngestor.validate_status "Draft" = some "Draft" := by
  refine ⟨rfl, ?_, rfl⟩
  simp [DedaIngestor.ProductElement.construct, DedaIngestor.validate_status,
    DedaIngestor.valid_statuses]

/-- C6 (amended): constructing a `ProductElement` with a status outside
the enumerated set `{Active, Inactive, Draft}` fails validation, a value
inside the set is returned unchanged, and every constructed
`ProductElement` has its status in that set. -/
theorem c6_status_enumeration (v : String) (e e' : DedaIngestor.ProductElement) :
    (DedaIngestor.validate_status v
      = if v ∈ DedaIngestor.valid_statuses then some v else none)
    ∧ (v ∉ DedaIngestor.valid_statuses → DedaIngestor.validate_status v = none)
    ∧ (DedaIngestor.ProductElement.construct e = some e' →
        e' = e ∧ e'.status ∈ DedaIngestor.valid_statuses) := by
  refine ⟨rfl, ?_, ?_⟩
  · intro h
    simp [DedaIngestor.validate_status, h]
  · intro h
    unfold DedaIngestor.ProductElement.construct DedaIngestor.validate_status at h
    by_cases hm : e.status ∈ DedaIngestor.valid_statuses
    · simp [hm] at h
      subst h
      exact ⟨rfl, hm⟩
    · simp [hm] at h

/-- C6 witness: the amended theorem applied at concrete inputs. -/
theorem c6_status_enumeration_witness :
    DedaIngestor.validate_status "Banana" = none
    ∧ (DedaIngestor.ProductElement.construct DedaIngestor.sampleElement
        = some DedaIngestor.sampleElement →
       DedaIngestor.sampleElement.status ∈ DedaIngestor.valid_statuses) :=
  ⟨(c6_status_enumeration "Banana" DedaIngestor.sampleElement
      DedaIngestor.sampleElement).2.1 (by decide),
   fun h => ((c6_status_enumeration "Active" DedaIngestor.sampleElement
      DedaIngestor.sampleElement).2.2 h).2⟩

/-! ### Claim C9: the `LoadResult.errors` dict under repeated identifiers -/

/-- Looking up the key just assigned returns the newly assigned value. -/
theorem pyLookup_pyUpsert_self {V : Type} (d : List (String × V)) (k : String)
    (v : V) : pyLookup (pyUpsert d k v) k = some v := by
  induction d with
  | nil => simp [pyUpsert, pyLookup]
  | cons kv rest ih =>
      obtain ⟨k', v'⟩ := kv
      by_cases h : k' = k <;> simp [pyUpsert, pyLookup, h, ih]

/-- Membership after a dict assignment. -/
theorem pyMem_pyUpsert {V : Type} (d : List (String × V)) (k a : String)
    (v : V) : pyMem (pyUpsert d k v) a = true ↔ (pyMem d a = true ∨ a = k) := by
  induction d with
  | nil =>
      by_cases hak : a = k
      · subst hak
        simp [pyUpsert, pyMem, pyLookup]
      · have hka : ¬ k = a := fun h => hak h.symm
        simp [pyUpsert, pyMem, pyLookup, hka, hak]
  | cons kv rest ih =>
      obtain ⟨k', v'⟩ := kv
      by_cases h : k' = k
      · subst h
        by_cases hak : k' = a
        · subst hak
          simp [pyUpsert, pyMem, pyLookup]
        · have hak' : ¬ a = k' := fun hh => hak hh.symm
          simp [pyUpsert, pyMem, pyLookup, hak, hak']
      · by_cases hak : k' = a
        · subst hak
          simp [pyUpsert, pyMem, pyLookup, h]
        · simp only [pyUpsert, if_neg h, pyMem, pyLookup, if_neg hak]
          exact ih

/-- A dict assignment grows the entry count exactly when the key is new. -/
theorem length_pyUpsert {V : Type} (d : List (String × V)) (k : String)
    (v : V) :
    (pyUpsert d k v).length
      = if pyMem d k = true then d.length else d.length + 1 := by
  induction d with
  | nil => simp [pyUpsert, pyMem, pyLookup]
  | cons kv rest ih =>
      obtain ⟨k', v'⟩ := kv
      by_cases h : k' = k
      · simp [pyUpsert, pyMem, pyLookup, h]
      · simp only [pyUpsert, if_neg h, List.length_cons, pyMem, pyLookup, ih]
        split_ifs <;> omega

/-- The identifiers of the `record_failure` calls in a call sequence, in
order. -/
def DataLoader.failIds (evs : List DataLoader.LoadEvent) : List String :=
  evs.filterMap fun e =>
    match e with
    | .failure id _ => some id
    | _ => none

/-- Invariant of the `LoadResult.errors` dict over any call sequence: the
error-map keys are exactly the recorded failure identifiers, the entry
count never exceeds `failed_loads`, and is strictly below it as soon as
two failures share an identifier. -/
theorem DataLoader.LoadResult.errors_invariant
    (evs : List DataLoader.LoadEvent) :
    (∀ a, pyMem (DataLoader.LoadResult.run evs).errors a = true
        ↔ a ∈ DataLoader.failIds evs)
    ∧ (DataLoader.LoadResult.run evs).failed_loads
        = (DataLoader.failIds evs).length
    ∧ (DataLoader.LoadResult.run evs).errors.length
        ≤ (DataLoader.LoadResult.run evs).failed_loads
    ∧ (¬ (DataLoader.failIds evs).Nodup →
        (DataLoader.LoadResult.run evs).errors.length
          < (DataLoader.LoadResult.run evs).failed_loads) := by
  induction evs using List.reverseRecOn with
  | nil =>
      refine ⟨?_, rfl, Nat.le_refl 0, ?_⟩
      · intro a
        simp [DataLoader.LoadResult.run, DataLoader.failIds, pyMem, pyLookup]
      · intro h
        exact absurd List.nodup_nil h
  | append_singleton evs e ih =>
      obtain ⟨hmem, hlen, hle, hstrict⟩ := ih
      have hrun : DataLoader.LoadResult.run (evs ++ [e])
          = (DataLoader.LoadResult.run evs).record e := by
        simp [DataLoader.LoadResult.run]
      cases e with
      | success =>
          have hids0 : DataLoader.failIds (evs ++ [.success])
              = DataLoader.failIds evs := by
            simp [DataLoader.failIds]
          have herr : (DataLoader.LoadResult.run (evs ++ [.success])).errors
              = (DataLoader.LoadResult.run evs).errors := by
            rw [hrun]
            simp [DataLoader.LoadResult.record,
              DataLoader.LoadResult.record_success,
              DataLoader.LoadResult.record_skip,
              DataLoader.LoadResult.record_failure]
          have hfail :
              (DataLoader.LoadResult.run (evs ++ [.success])).failed_loads
              = (DataLoader.LoadResult.run evs).failed_loads := by
            rw [hrun]
            simp [DataLoader.LoadResult.record,
              DataLoader.LoadResult.record_success,
              DataLoader.LoadResult.record_skip,
              DataLoader.LoadResult.record_failure]
          exact ⟨fun a => by rw [herr, hids0]; exact hmem a,
                 by rw [hfail, hids0]; exact hlen,
                 by rw [herr, hfail]; exact hle,
                 fun hnd => by
                   rw [herr, hfail]
                   exact hstrict (by rwa [hids0] at hnd)⟩
      | skip =>
          have hids0 : DataLoader.failIds (evs ++ [.skip])
              = DataLoader.failIds evs := by
            simp [DataLoader.failIds]
          have herr : (DataLoader.LoadResult.run (evs ++ [.skip])).errors
              = (DataLoader.LoadResult.run evs).errors := by
            rw [hrun]
            simp [DataLoader.LoadResult.record,
              DataLoader.LoadResult.record_success,
              DataLoader.LoadResult.record_skip,
              DataLoader.LoadResult.record_failure]
          have hfail :
              (DataLoader.LoadResult.run (evs ++ [.skip])).failed_loads
              = (DataLoader.LoadResult.run evs).failed_loads := by
            rw [hrun]
            simp [DataLoader.LoadResult.record,
              DataLoader.LoadResult.record_success,
              DataLoader.LoadResult.record_skip,
              DataLoader.LoadResult.record_failure]
          exact ⟨fun a => by rw [herr, hids0]; exact hmem a,
                 by rw [hfail, hids0]; exact hlen,
                 by rw [herr, hfail]; exact hle,
                 fun hnd => by
                   rw [herr, hfail]
                   exact hstrict (by rwa [hids0] at hnd)⟩
      | failure id msg =>
          have hids' : DataLoader.failIds (evs ++ [.failure id msg])
              = DataLoader.failIds evs ++ [id] := by
            simp [DataLoader.failIds]
          have herr :
              (DataLoader.LoadResult.run (evs ++ [.failure id msg])).errors
              = pyUpsert (DataLoader.LoadResult.run evs).errors id msg := by
            rw [hrun]
            simp [DataLoader.LoadResult.record,
              DataLoader.LoadResult.record_success,
              DataLoader.LoadResult.record_skip,
              DataLoader.LoadResult.record_failure]
          have hfail :
              (DataLoader.LoadResult.run
                (evs ++ [.failure id msg])).failed_loads
              = (DataLoader.LoadResult.run evs).failed_loads + 1 := by
            rw [hrun]
            simp [DataLoader.LoadResult.record,
              DataLoader.LoadResult.record_success,
              DataLoader.LoadResult.record_skip,
              DataLoader.LoadResult.record_failure]
          refine ⟨?_, ?_, ?_, ?_⟩
          · intro a
            rw [herr, hids', pyMem_pyUpsert]
            simp [hmem a]
          · rw [hfail, hids', hlen]
            simp
          · rw [herr, hfail, length_pyUpsert]
            split_ifs <;> omega
          · intro hnd
            rw [herr, hfail, length_pyUpsert]
            by_cases h : pyMem (DataLoader.LoadResult.run evs).errors id = true
            · rw [if_pos h]
              omega
            · rw [if_neg h]
              have hnotin : id ∉ DataLoader.failIds evs := by
                intro hin
                exact h ((hmem id).mpr hin)
              have hnd0 : ¬ (DataLoader.failIds evs).Nodup := by
                intro hnodup
                apply hnd
                rw [hids']
                simp [List.nodup_append, hnodup, hnotin]
              have := hstrict hnd0
              omega

/-- C9: calling `record_failure` twice with the same identifier increments
`total_records` and `failed_loads` by one each time but keeps only the
most recent error message for that identifier; after any call sequence the
number of entries in the errors map is at most `failed_loads`, and
strictly less whenever two failures share an identifier. -/
theorem c9_record_failure_same_identifier :
    (∀ (r : DataLoader.LoadResult) (id m1 m2 : String),
        (r.record_failure id m1).total_records = r.total_records + 1
        ∧ (r.record_failure id m1).failed_loads = r.failed_loads + 1
        ∧ ((r.record_failure id m1).record_failure id m2).total_records
            = r.total_records + 2
        ∧ ((r.record_failure id m1).record_failure id m2).failed_loads
            = r.failed_loads + 2
        ∧ pyLookup ((r.record_failure id m1).record_failure id m2).errors id
            = some m2)
    ∧ (∀ evs : List DataLoader.LoadEvent,
        (DataLoader.LoadResult.run evs).errors.length
          ≤ (DataLoader.LoadResult.run evs).failed_loads
        ∧ (¬ (DataLoader.failIds evs).Nodup →
            (DataLoader.LoadResult.run evs).errors.length
              < (DataLoader.LoadResult.run evs).failed_loads)) := by
  constructor
  · intro r id m1 m2
    refine ⟨rfl, rfl, rfl, rfl, ?_⟩
    simp [DataLoader.LoadResult.record_failure, pyLookup_pyUpsert_self]
  · intro evs
    exact ⟨(DataLoader.LoadResult.errors_invariant evs).2.2.1,
      (DataLoader.LoadResult.errors_invariant evs).2.2.2⟩

/-- C9 witness: a concrete sequence with two failures sharing one
identifier has a strictly smaller errors map than `failed_loads`. -/
theorem c9_record_failure_same_identifier_witness :
    pyLookup ((({} : DataLoader.LoadResult).record_failure "row-4" "first"
        ).record_failure "row-4" "second").errors "row-4" = some "second"
    ∧ (DataLoader.LoadResult.run
        [.failure "row-4" "first", .failure "row-4" "second"]).errors.length
      < (DataLoader.LoadResult.run
        [.failure "row-4" "first", .failure "row-4" "second"]).failed_loads :=
  ⟨(c9_record_failure_same_identifier.1 {} "row-4" "first" "second").2.2.2.2,
   (c9_record_failure_same_identifier.2
      [.failure "row-4" "first", .failure "row-4" "second"]).2 (by decide)⟩

/-! ## Ivanti Data Loader: field-mapper transformer (claims C7 and C10)

Embedded from `plugins/transformers/field_mapper.py`. Record values are
the scalar Python values that occur in loader records (strings, ints,
floats, booleans, `None`); Python floats appearing in the claims are exact
decimals, represented by `Rat`. -/

namespace DataLoader

/-- A scalar Python value in a loader record; `vnone` is Python `None`
(also the normalized form of an empty/NaN spreadsheet cell). -/
inductive CellVal where
  | vstr (s : String)
  | vint (n : Int)
  | vfloat (q : Rat)
  | vbool (b : Bool)
  | vnone
deriving DecidableEq

/-- Python `str(value)` on scalar record values. Floats print in Python
style for integral values; non-integral float formatting is approximated
by the rational literal (no claim stringifies a non-integral float). -/
def CellVal.pyStr : CellVal → String
  | .vstr s => s
  | .vint n => toString n
  | .vfloat q => if q.den = 1 then toString q.num ++ ".0" else toString q
  | .vbool b => if b then "True" else "False"
  | .vnone => "None"

/-- Python `int(x)` truncation toward zero on an exact float value. -/
def ratTruncate (q : Rat) : Int := if 0 ≤ q then q.floor else q.ceil

/-- Python `float(s)` on a string: optional surrounding whitespace,
optional sign, digits with an optional decimal point. (Scientific
notation, infinities and NaN are not modelled; no claim exercises them.)
Returns `none` when the parse fails. -/
def digitsToNat (cs : List Char) : Nat :=
  cs.foldl (fun acc c => acc * 10 + (c.toNat - 48)) 0

def pyParseFloat (s : String) : Option Rat :=
  let chars := (pyStrip s).data
  let signed : Bool × List Char :=
    match chars with
    | '-' :: rest => (true, rest)
    | '+' :: rest => (false, rest)
    | rest => (false, rest)
  let intPart := signed.2.takeWhile Char.isDigit
  let rest := signed.2.dropWhile Char.isDigit
  let parsed : Option (Nat × Nat × Nat) :=
    match rest with
    | [] =>
        if intPart.isEmpty then none
        else some (digitsToNat intPart, 0, 0)
    | '.' :: frac =>
        if frac.all Char.isDigit ∧ ¬ (intPart.isEmpty ∧ frac.isEmpty) then
          some (digitsToNat intPart, digitsToNat frac, frac.length)
        else none
    | _ => none
  parsed.map fun p =>
    let mag : Rat := (p.1 : Rat) + (p.2.1 : Rat) / ((10 : Rat) ^ p.2.2)
    if signed.1 then -mag else mag

/-- `FieldTransform.to_string` from `field_mapper.py` lines 14-17. -/
def FieldTransform.to_string (v : CellVal) : CellVal :=
  if v = .vnone then .vstr "" else .vstr v.pyStr

/-- `FieldTransform.to_int` from `field_mapper.py` lines 19-25:
`int(float(value))`, `None` on failure or absent input. -/
def FieldTransform.to_int (v : CellVal) : CellVal :=
  match v with
  | .vstr s => match pyParseFloat s with
      | some q => .vint (ratTruncate q)
      | none => .vnone
  | .vint n => .vint n
  | .vfloat q => .vint (ratTruncate q)
  | .vbool b => .vint (if b then 1 else 0)
  | .vnone => .vnone

/-- `FieldTransform.to_float` from `field_mapper.py` lines 27-33. -/
def FieldTransform.to_float (v : CellVal) : CellVal :=
  match v with
  | .vstr s => match pyParseFloat s with
      | some q => .vfloat q
      | none => .vnone
  | .vint n => .vfloat n
  | .vfloat q => .vfloat q
  | .vbool b => .vfloat (if b then 1 else 0)
  | .vnone => .vnone

/-- `FieldTransform.to_bool` from `field_mapper.py` lines 35-44. -/
def FieldTransform.to_bool (v : CellVal) : CellVal :=
  match v with
  | .vbool b => .vbool b
  | .vstr s => .vbool (pyLower s ∈ ["true", "yes", "1", "on"])
  | .vint n => .vbool (n ≠ 0)
  | .vfloat q => .vbool (q ≠ 0)
  | .vnone => .vnone

/-- `FieldTransform.strip` from `field_mapper.py` lines 46-49. -/
def FieldTransform.strip (v : CellVal) : CellVal :=
  if v = .vnone then .vstr "" else .vstr (pyStrip v.pyStr)

/-- `FieldTransform.upper` from `field_mapper.py` lines 51-54. -/
def FieldTransform.upper (v : CellVal) : CellVal :=
  if v = .vnone then .vstr "" else .vstr (pyUpper v.pyStr)

/-- `FieldTransform.lower` from `field_mapper.py` lines 56-59. -/
def FieldTransform.lower (v : CellVal) : CellVal :=
  if v = .vnone then .vstr "" else .vstr (pyLower v.pyStr)

/-- The built-in `_transform_functions` registry from `field_mapper.py`
lines 92-100. -/
def lookupTransform : String → Option (CellVal → CellVal)
  | "string" => some FieldTransform.to_string
  | "int" => some FieldTransform.to_int
  | "float" => some FieldTransform.to_float
  | "bool" => some FieldTransform.to_bool
  | "strip" => some FieldTransform.strip
  | "upper" => some FieldTransform.upper
  | "lower" => some FieldTransform.lower
  | _ => none

/-- A `TransformerError` (`core/exceptions.py`): message only; no claim
inspects its details map. -/
structure TransformerError where
  message : String
deriving DecidableEq

/-- The `for t in transforms` loop of `FieldMapper._apply_transform`
(`field_mapper.py` lines 127-133): strip each segment, fail on an unknown
name, otherwise apply the function to the running result. -/
def applyTransformList (v : CellVal) :
    List String → Except TransformerError CellVal
  | [] => .ok v
  | t :: ts =>
      match lookupTransform (pyStrip t) with
      | some f => applyTransformList (f v) ts
      | none => .error ⟨"Transform not found: " ++ pyStrip t⟩

/-- `FieldMapper._apply_transform` from `field_mapper.py` lines 102-133:
`if not transform: return value` (both `None` and the empty string are
falsy), else split the chain on the pipe character and fold left to
right. -/
def apply_transform (v : CellVal) (t : Option String) :
    Except TransformerError CellVal :=
  match t with
  | none => .ok v
  | some s => if s = "" then .ok v else applyTransformList v (pySplit s '|')

/-- `MappingConfig` from `core/base.py` lines 16-21. Python initialises
`default_value` to `None`, and the mapper tests `default_value is not
None`, so the unset default is exactly the value `vnone`. -/
structure MappingConfig where
  source_field : String
  target_field : String
  transform : Option String := none
  default_value : CellVal := .vnone
deriving DecidableEq

/-- The `FieldMapper` configuration state after `__init__`
(`field_mapper.py` lines 82-91). -/
structure FieldMapper where
  mappings : List MappingConfig
  ignore_missing : Bool := false
  include_unmapped : Bool := false
deriving DecidableEq

/-- `data.get(key)` with the Python `None` result for an absent key:
a key that is present with value `None` and a key that is absent are
indistinguishable to the caller. -/
def pyGetNone (d : List (String × CellVal)) (k : String) : CellVal :=
  (pyLookup d k).getD .vnone

/-- One iteration of the `for mapping in self.config` loop of
`FieldMapper.transform` (`field_mapper.py` lines 152-176): `ok none` when
the loop `continue`s (missing source with `ignore_missing`), `ok (some tv)`
when it assigns `tv` to the target field, `error` when it raises. -/
def mapOne (ignore_missing : Bool) (data : List (String × CellVal))
    (m : MappingConfig) : Except TransformerError (Option CellVal) :=
  let source_value := pyGetNone data m.source_field
  if source_value = .vnone ∧ ignore_missing then .ok none
  else if source_value = .vnone ∧ m.default_value = .vnone then
    .error ⟨"Missing required field: " ++ m.source_field⟩
  else
    let sv := if source_value = .vnone then m.default_value else source_value
    match apply_transform sv m.transform with
    | .ok tv => .ok (some tv)
    | .error e =>
        .error ⟨"Transform failed for field " ++ m.source_field ++ ": "
          ++ e.message⟩

/-- The `for mapping in self.config` loop of `FieldMapper.transform`
(`field_mapper.py` lines 152-176), threading the output dict. -/
def transformMappings (ignore_missing : Bool)
    (data : List (String × CellVal)) :
    List MappingConfig → List (String × CellVal) →
    Except TransformerError (List (String × CellVal))
  | [], result => .ok result
  | m :: ms, result =>
      match mapOne ignore_missing data m with
      | .ok none => transformMappings ignore_missing data ms result
      | .ok (some tv) =>
          transformMappings ignore_missing data ms
            (pyUpsert result m.target_field tv)
      | .error e => .error e

/-- `FieldMapper.transform` from `field_mapper.py` lines 135-192: run the
mapping loop on an empty output dict, then (if `include_unmapped`) copy
through every source field not referenced by any mapping, in source
order. -/
def FieldMapper.transform (cfg : FieldMapper)
    (data : List (String × CellVal)) :
    Except TransformerError (List (String × CellVal)) :=
  match transformMappings cfg.ignore_missing data cfg.mappings [] with
  | .error e => .error e
  | .ok result =>
      if cfg.include_unmapped then
        let mapped := cfg.mappings.map MappingConfig.source_field
        let unmapped := data.filter (fun kv => !(mapped.contains kv.1))
        .ok (unmapped.foldl (fun r kv => pyUpsert r kv.1 kv.2) result)
      else .ok result

end DataLoader

/-! ### Claim C7 -/

/-- The mapping of claim C7:
`{source_field: "name", target_field: "Name", transform: "strip|upper"}`. -/
def DataLoader.claimMapping : DataLoader.MappingConfig :=
  { source_field := "name", target_field := "Name",
    transform := some "strip|upper", default_value := .vnone }

/-- C7: transform chains are applied strictly left to right, the claimed
concrete mapping on `{"name": "  widget  "}` yields exactly
`{"Name": "WIDGET"}`, and a chain containing an unknown transform name
fails with a transformer error naming exactly that unknown segment. -/
theorem c7_field_mapper_chained_transform :
    (DataLoader.FieldMapper.transform { mappings := [DataLoader.claimMapping] }
        [("name", .vstr "  widget  ")]
      = .ok [("Name", .vstr "WIDGET")])
    ∧ (∀ (v : DataLoader.CellVal) (t : String) (ts : List String)
        (f : DataLoader.CellVal → DataLoader.CellVal),
        DataLoader.lookupTransform (pyStrip t) = some f →
        DataLoader.applyTransformList v (t :: ts)
          = DataLoader.applyTransformList (f v) ts)
    ∧ (∀ (v : DataLoader.CellVal) (pre : List String) (t : String)
        (post : List String),
        (∀ u ∈ pre, (DataLoader.lookupTransform (pyStrip u)).isSome) →
        DataLoader.lookupTransform (pyStrip t) = none →
        DataLoader.applyTransformList v (pre ++ t :: post)
          = .error { message := "Transform not found: " ++ pyStrip t }) := by
  refine ⟨rfl, ?_, ?_⟩
  · intro v t ts f h
    simp [DataLoader.applyTransformList, h]
  · intro v pre t post hall hnone
    induction pre generalizing v with
    | nil => simp [DataLoader.applyTransformList, hnone]
    | cons u us ih =>
        have hu : (DataLoader.lookupTransform (pyStrip u)).isSome :=
          hall u (by simp)
        obtain ⟨f, hf⟩ := Option.isSome_iff_exists.mp hu
        simp only [List.cons_append, DataLoader.applyTransformList, hf]
        exact ih (f v) (fun x hx => hall x (by simp [hx]))

/-- C7 witness: the chain-order law and the unknown-name error at concrete
inputs. -/
theorem c7_field_mapper_chained_transform_witness :
    DataLoader.applyTransformList (.vstr "  a  ") ["strip", "upper"]
      = DataLoader.applyTransformList
          (DataLoader.FieldTransform.strip (.vstr "  a  ")) ["upper"]
    ∧ DataLoader.applyTransformList (.vstr "x") ["strip", "nope", "upper"]
      = .error { message := "Transform not found: nope" } :=
  ⟨c7_field_mapper_chained_transform.2.1 (.vstr "  a  ") "strip" ["upper"]
      DataLoader.FieldTransform.strip rfl,
   c7_field_mapper_chained_transform.2.2 (.vstr "x") ["strip"] "nope"
      ["upper"] (by decide) rfl⟩

/-! ### Claim C10 -/

/-- `data.get(k)` cannot see the difference between a key bound to `None`
and an absent key (given Python dict key uniqueness). -/
theorem DataLoader.pyGetNone_null_entry (k f : String)
    (rest : List (String × DataLoader.CellVal))
    (hk : pyMem rest k = false) :
    DataLoader.pyGetNone ((k, DataLoader.CellVal.vnone) :: rest) f
      = DataLoader.pyGetNone rest f := by
  by_cases h : k = f
  · subst h
    have hnone : pyLookup rest k = none := by
      cases hl : pyLookup rest k with
      | none => rfl
      | some v => simp [pyMem, hl] at hk
    simp [DataLoader.pyGetNone, pyLookup, hnone]
  · simp [DataLoader.pyGetNone, pyLookup, h]

/-- The mapping loop ignores a leading null-valued entry whose key is not
repeated. -/
theorem DataLoader.transformMappings_null_entry (ig : Bool) (k : String)
    (rest : List (String × DataLoader.CellVal))
    (hk : pyMem rest k = false)
    (ms : List DataLoader.MappingConfig)
    (result : List (String × DataLoader.CellVal)) :
    DataLoader.transformMappings ig ((k, DataLoader.CellVal.vnone) :: rest)
        ms result
      = DataLoader.transformMappings ig rest ms result := by
  induction ms generalizing result with
  | nil => rfl
  | cons m ms ih =>
      have hone : DataLoader.mapOne ig ((k, DataLoader.CellVal.vnone) :: rest) m
          = DataLoader.mapOne ig rest m := by
        unfold DataLoader.mapOne
        rw [DataLoader.pyGetNone_null_entry k m.source_field rest hk]
      simp only [DataLoader.transformMappings, hone]
      cases h : DataLoader.mapOne ig rest m with
      | error e => rfl
      | ok o =>
          cases o with
          | none => exact ih result
          | some tv => exact ih (pyUpsert result m.target_field tv)

/-- C10: a source field bound to a null value is treated identically to an
absent field: the whole transform result is unchanged when the null entry
is dropped (provided the field is referenced by a mapping), and for a
mapping whose source is missing the field is skipped under
`ignore_missing`, else replaced by the configured `default_value`, else
the call fails with a transformer error naming the missing field. -/
theorem c10_field_mapper_null_equals_absent :
    (∀ (cfg : DataLoader.FieldMapper) (k : String)
        (rest : List (String × DataLoader.CellVal)),
        k ∈ cfg.mappings.map DataLoader.MappingConfig.source_field →
        pyMem rest k = false →
        cfg.transform ((k, DataLoader.CellVal.vnone) :: rest)
          = cfg.transform rest)
    ∧ (∀ (m : DataLoader.MappingConfig)
        (data : List (String × DataLoader.CellVal)),
        DataLoader.pyGetNone data m.source_field = .vnone →
        (DataLoader.FieldMapper.transform
            { mappings := [m], ignore_missing := true } data = .ok [])
        ∧ (m.default_value = .vnone →
            DataLoader.FieldMapper.transform { mappings := [m] } data
              = .error { message := "Missing required field: "
                  ++ m.source_field })
        ∧ (m.default_value ≠ .vnone →
            DataLoader.FieldMapper.transform { mappings := [m] } data
              = match DataLoader.apply_transform m.default_value m.transform with
                | .ok tv => .ok [(m.target_field, tv)]
                | .error e =>
                    .error { message := "Transform failed for field "
                      ++ m.source_field ++ ": " ++ e.message })) := by
  constructor
  · intro cfg k rest hmap hk
    unfold DataLoader.FieldMapper.transform
    rw [DataLoader.transformMappings_null_entry cfg.ignore_missing k rest hk]
    cases hres : DataLoader.transformMappings cfg.ignore_missing rest
        cfg.mappings [] with
    | error e => rfl
    | ok result =>
        by_cases hinc : cfg.include_unmapped = true
        · have hex : ∃ a ∈ cfg.mappings, a.source_field = k :=
            List.mem_map.mp hmap
          simp [hinc, List.filter, hex]
        · simp [Bool.not_eq_true] at hinc
          simp [hinc]
  · intro m data h
    refine ⟨?_, ?_, ?_⟩
    · simp [DataLoader.FieldMapper.transform, DataLoader.transformMappings,
        DataLoader.mapOne, h]
    · intro hd
      simp [DataLoader.FieldMapper.transform, DataLoader.transformMappings,
        DataLoader.mapOne, h, hd]
    · intro hd
      have hone : DataLoader.mapOne false data m
          = match DataLoader.apply_transform m.default_value m.transform with
            | .ok tv => .ok (some tv)
            | .error e =>
                .error { message := "Transform failed for field "
                  ++ m.source_field ++ ": " ++ e.message } := by
        simp [DataLoader.mapOne, h, hd]
      cases happly : DataLoader.apply_transform m.default_value m.transform with
      | ok tv =>
          simp [DataLoader.FieldMapper.transform,
            DataLoader.transformMappings, hone, happly, pyUpsert]
      | error e =>
          simp [DataLoader.FieldMapper.transform,
            DataLoader.transformMappings, hone, happly]

/-- C10 witness: the null-entry equality and the three-way missing-field
behaviour at concrete inputs. -/
theorem c10_field_mapper_null_equals_absent_witness :
    DataLoader.FieldMapper.transform { mappings := [DataLoader.claimMapping] }
        [("name", DataLoader.CellVal.vnone), ("other", .vint 1)]
      = DataLoader.FieldMapper.transform
          { mappings := [DataLoader.claimMapping] } [("other", .vint 1)]
    ∧ DataLoader.FieldMapper.transform
        { mappings := [DataLoader.claimMapping], ignore_missing := true }
        [("other", .vint 1)] = .ok []
    ∧ DataLoader.FieldMapper.transform { mappings := [DataLoader.claimMapping] }
        [("other", .vint 1)]
      = .error { message := "Missing required field: name" } :=
  ⟨c10_field_mapper_null_equals_absent.1
      { mappings := [DataLoader.claimMapping] } "name" [("other", .vint 1)]
      (by decide) (by decide),
   (c10_field_mapper_null_equals_absent.2 DataLoader.claimMapping
      [("other", .vint 1)] rfl).1,
   (c10_field_mapper_null_equals_absent.2 DataLoader.claimMapping
      [("other", .vint 1)] rfl).2.1 rfl⟩

/-! ## Ivanti Data Loader: Excel reader (claim C8)

Embedded from `plugins/readers/excel.py`. The pandas `read_excel` call is
an external boundary: the loaded sheet (column names and cell rows, with
empty/NaN cells already denoted by `vnone`, exactly the normalization the
reader performs per cell) is the input of the embedded `read`. Only the
configuration fields that `read`/`validate` consult are modelled
(`file_path`/`sheet_name` merely select that input). -/

namespace DataLoader

/-- `ExcelReaderConfig` from `excel.py` lines 13-32 (fields read by
`read`/`validate`). -/
structure ExcelReaderConfig where
  header_row : Nat := 0
  skip_rows : Nat := 0
  required_columns : List String := []
deriving DecidableEq

/-- `ExcelRecord` from `excel.py` lines 35-38. -/
structure ExcelRecord where
  row_number : Nat
  data : List (String × CellVal)
deriving DecidableEq

/-- A `ReaderError` raised by `read`; the missing set is kept in
`required_columns` order (Python formats an unordered set into the
message). -/
inductive ReaderError where
  | requiredColumnsMissing (missing : List String)
deriving DecidableEq

/-- Build the record for the data row at positional index `idx`
(`excel.py` lines 86-97): `row_number = index + header_row + skip_rows + 2`
and the column-to-value map of the row. -/
def ExcelReader.mkRecord (cfg : ExcelReaderConfig) (columns : List String)
    (idx : Nat) (row : List CellVal) : ExcelRecord :=
  { row_number := idx + cfg.header_row + cfg.skip_rows + 2,
    data := columns.zip row }

/-- `ExcelReader.validate` from `excel.py` lines 109-130: false when any
required column is absent from the record or holds the absent-value
sentinel. -/
def ExcelReader.validate (cfg : ExcelReaderConfig) (record : ExcelRecord) :
    Bool :=
  cfg.required_columns.all fun column =>
    match pyLookup record.data column with
    | some v => if v = CellVal.vnone then false else true
    | none => false

/-- `ExcelReader.read` from `excel.py` lines 57-107: check required
columns against the sheet, build one record per data row, and silently
drop every record rejected by `validate`. -/
def ExcelReader.read (cfg : ExcelReaderConfig) (columns : List String)
    (rows : List (List CellVal)) : Except ReaderError (List ExcelRecord) :=
  let missing := cfg.required_columns.filter (fun c => !(columns.contains c))
  if cfg.required_columns ≠ [] ∧ missing ≠ [] then
    .error (.requiredColumnsMissing missing)
  else
    .ok (((List.range rows.length).map fun idx =>
        ExcelReader.mkRecord cfg columns idx (rows.getD idx [])).filter
      (fun record => ExcelReader.validate cfg record))

end DataLoader

/-! ### Claim C8 -/

/-- C8: every record read from a sheet carries
`row_number = index + header_row + skip_rows + 2` (so with `header_row=0`
and `skip_rows=2` the first data row is reported as row 4), every returned
record passes `validate`, every valid row's record is returned, and a row
whose record fails `validate` is silently excluded from the returned list
(the reader returns normally and counts nothing as a failure). -/
theorem c8_excel_reader_row_numbering (cfg : DataLoader.ExcelReaderConfig)
    (columns : List String) (rows : List (List DataLoader.CellVal))
    (recs : List DataLoader.ExcelRecord)
    (h : DataLoader.ExcelReader.read cfg columns rows = .ok recs) :
    (∀ r ∈ recs, DataLoader.ExcelReader.validate cfg r = true)
    ∧ (∀ idx, idx < rows.length →
        DataLoader.ExcelReader.validate cfg
            (DataLoader.ExcelReader.mkRecord cfg columns idx
              (rows.getD idx [])) = true →
        DataLoader.ExcelReader.mkRecord cfg columns idx (rows.getD idx [])
          ∈ recs)
    ∧ (∀ idx, idx < rows.length →
        DataLoader.ExcelReader.validate cfg
            (DataLoader.ExcelReader.mkRecord cfg columns idx
              (rows.getD idx [])) = false →
        DataLoader.ExcelReader.mkRecord cfg columns idx (rows.getD idx [])
          ∉ recs)
    ∧ (∀ idx row, (DataLoader.ExcelReader.mkRecord cfg columns idx
        row).row_number = idx + cfg.header_row + cfg.skip_rows + 2)
    ∧ (∀ row, (DataLoader.ExcelReader.mkRecord
        { header_row := 0, skip_rows := 2 } columns 0 row).row_number
          = 4) := by
  unfold DataLoader.ExcelReader.read at h
  by_cases hcond : cfg.required_columns ≠ []
      ∧ cfg.required_columns.filter
        (fun c => !(columns.contains c)) ≠ [] 
  · rw [if_pos hcond] at h
    exact absurd h (by simp)
  · rw [if_neg hcond] at h
    have hrecs : recs = ((List.range rows.length).map fun idx =>
        DataLoader.ExcelReader.mkRecord cfg columns idx
          (rows.getD idx [])).filter
        (fun record => DataLoader.ExcelReader.validate cfg record) := by
      exact (Except.ok.injEq _ _).mp h.symm
    subst hrecs
    refine ⟨?_, ?_, ?_, ?_, ?_⟩
    · intro r hr
      exact (List.mem_filter.mp hr).2
    · intro idx hidx hvalid
      refine List.mem_filter.mpr ⟨?_, hvalid⟩
      exact List.mem_map.mpr ⟨idx, List.mem_range.mpr hidx, rfl⟩
    · intro idx hidx hinvalid hmem
      have := (List.mem_filter.mp hmem).2
      rw [hinvalid] at this
      exact Bool.false_ne_true this
    · intro idx row
      rfl
    · intro row
      rfl

/-- C8 witness: a concrete two-row sheet with a required column; the first
data row is numbered 4 and the row with a missing value is dropped. -/
theorem c8_excel_reader_row_numbering_witness :
    (∀ r ∈ [DataLoader.ExcelReader.mkRecord
        { header_row := 0, skip_rows := 2, required_columns := ["id"] }
        ["id", "name"] 0 [.vint 1, .vstr "a"]],
      DataLoader.ExcelReader.validate
        { header_row := 0, skip_rows := 2, required_columns := ["id"] }
        r = true)
    ∧ (DataLoader.ExcelReader.mkRecord
        { header_row := 0, skip_rows := 2, required_columns := ["id"] }
        ["id", "name"] 0 [.vint 1, .vstr "a"]).row_number = 4 := by
  have h := c8_excel_reader_row_numbering
    { header_row := 0, skip_rows := 2, required_columns := ["id"] }
    ["id", "name"]
    [[.vint 1, .vstr "a"], [.vnone, .vstr "b"]]
    [DataLoader.ExcelReader.mkRecord
      { header_row := 0, skip_rows := 2, required_columns := ["id"] }
      ["id", "name"] 0 [.vint 1, .vstr "a"]]
    (by rfl)
  exact ⟨h.1, h.2.2.2.2 [.vint 1, .vstr "a"]⟩

/-! ## Deda Ingestor: inbound message validation (claim C4)

Embedded from `adapters/base.py` (`ValidationMixin.validate_required_fields`)
and `adapters/product_adapter.py` (`ProductAdapter.validate_input`).
Inbound queue messages are JSON values. -/

namespace DedaIngestor

/-- A JSON-shaped Python value of an inbound queue message. -/
inductive PyVal where
  | vstr (s : String)
  | vint (n : Int)
  | vrat (q : Rat)
  | vbool (b : Bool)
  | vnone
  | vlist (xs : List PyVal)
  | vdict (d : List (String × PyVal))

/-- A Python dict of message fields. -/
abbrev PyDict := List (String × PyVal)

/-- The `not str(data[field]).strip()` emptiness test of
`validate_required_fields`: only a whitespace-only string is empty, since
`str()` of an int, float, bool, `None`, list or dict is never
whitespace-only (`"0"`, `"None"`, `"[]"`, `"{}"`, ...). -/
def PyVal.isBlank : PyVal → Bool
  | .vstr s => (pyStrip s).isEmpty
  | _ => false

/-- Python `type(x).__name__` for message values. -/
def PyVal.typeName : PyVal → String
  | .vstr _ => "str"
  | .vint _ => "int"
  | .vrat _ => "float"
  | .vbool _ => "bool"
  | .vnone => "NoneType"
  | .vlist _ => "list"
  | .vdict _ => "dict"

/-- Python `sep.join(xs)`. -/
def joinSep (sep : String) : List String → String
  | [] => ""
  | [x] => x
  | x :: xs => x ++ sep ++ joinSep sep xs

/-- The details dict attached to the adapter errors of message
validation. -/
inductive AdapterDetails where
  | requiredFields (missing_fields empty_fields : List String)
      (context : String)
  | elementInvalid (element_index : Nat)
      (validation_errors : AdapterDetails)
  | receivedType (received_type : String)
deriving DecidableEq

/-- An `AdapterError` (`core/exceptions.py`): message plus details. -/
structure AdapterError where
  message : String
  details : AdapterDetails
deriving DecidableEq

/-- The error message built by `validate_required_fields`
(`adapters/base.py` lines 61-70). -/
def validationMessage (missing_fields empty_fields : List String)
    (context : String) : String :=
  let errors :=
    (if missing_fields = [] then []
      else ["Missing required fields: " ++ joinSep ", " missing_fields])
    ++ (if empty_fields = [] then []
      else ["Empty required fields: " ++ joinSep ", " empty_fields])
  let context_str := if context = "" then "" else " in " ++ context
  "Validation failed" ++ context_str ++ ": " ++ joinSep "; " errors

/-- `ValidationMixin.validate_required_fields` from `adapters/base.py`
lines 35-76: collects the absent fields and the present-but-blank fields
(in `required` order) and raises an `AdapterError` carrying both lists
when either is non-empty. -/
def validate_required_fields (data : PyDict) (required : List String)
    (context : String) : Except AdapterError Unit :=
  let missing_fields := required.filter fun f => !(pyMem data f)
  let empty_fields := required.filter fun f =>
    pyMem data f && ((pyLookup data f).getD .vnone).isBlank
  if missing_fields = [] ∧ empty_fields = [] then .ok ()
  else
    .error ⟨validationMessage missing_fields empty_fields context,
      .requiredFields missing_fields empty_fields context⟩

/-- `ProductAdapter.REQUIRED_PRODUCT_FIELDS`
(`product_adapter.py` line 22). -/
def REQUIRED_PRODUCT_FIELDS : List String :=
  ["productId", "productName", "productElements"]

/-- `ProductAdapter.REQUIRED_ELEMENT_FIELDS`
(`product_adapter.py` lines 23-43). -/
def REQUIRED_ELEMENT_FIELDS : List String :=
  ["Lenght", "Procuct Element", "Type", "GG Startup", "RU", "RU Qty",
   "RU Unit of measure", "Q.ty min", "Q.ty MAX", "%Sconto MAX",
   "Startup Costo", "Startup Margine", "Startup Prezzo",
   "Canone Costo Mese", "Canone Margine", "Canone Prezzo Mese",
   "Extended Description", "Profit Center Prevalente", "Status"]

/-- A raised exception during validation: an `AdapterError`, or the
`TypeError` Python raises when a message element is not a mapping (the
string/list membership corners of the `in` operator on non-dict elements
are collapsed into this case; no claim exercises a non-dict element). -/
inductive PyExn where
  | adapter (e : AdapterError)
  | typeError
deriving DecidableEq

/-- The `for i, element in enumerate(elements)` loop of
`ProductAdapter.validate_input` (`product_adapter.py` lines 71-85):
per-element required-field validation, re-wrapped with the element
index. -/
def validateElements : Nat → List PyVal → Except PyExn Unit
  | _, [] => .ok ()
  | i, e :: es =>
      match e with
      | .vdict d =>
          match validate_required_fields d REQUIRED_ELEMENT_FIELDS
              ("product element " ++ Nat.repr (i + 1)) with
          | .ok _ => validateElements (i + 1) es
          | .error err =>
              .error (.adapter
                ⟨"Invalid product element at index " ++ Nat.repr i,
                 .elementInvalid i err.details⟩)
      | _ => .error .typeError

/-- `ProductAdapter.validate_input` from `product_adapter.py` lines
45-86. -/
def validate_input (data : PyDict) : Except PyExn Unit :=
  match validate_required_fields data REQUIRED_PRODUCT_FIELDS
      "product data" with
  | .error e => .error (.adapter e)
  | .ok _ =>
      match (pyLookup data "productElements").getD (.vlist []) with
      | .vlist es => validateElements 0 es
      | other =>
          .error (.adapter ⟨"Product elements must be a list",
            .receivedType other.typeName⟩)

end DedaIngestor

/-! ### Claim C4 -/

/-- The `missing_fields` list computed by `validate_required_fields` for
the top-level product fields. -/
def DedaIngestor.topMissing (msg : DedaIngestor.PyDict) : List String :=
  DedaIngestor.REQUIRED_PRODUCT_FIELDS.filter fun f => !(pyMem msg f)

/-- The `empty_fields` list computed by `validate_required_fields` for the
top-level product fields. -/
def DedaIngestor.topEmpty (msg : DedaIngestor.PyDict) : List String :=
  DedaIngestor.REQUIRED_PRODUCT_FIELDS.filter fun f =>
    pyMem msg f && ((pyLookup msg f).getD .vnone).isBlank

/-- The adapter error `validate_input` raises when the top-level check
fails. -/
def DedaIngestor.topFailure (msg : DedaIngestor.PyDict) :
    Except DedaIngestor.PyExn Unit :=
  .error (.adapter
    ⟨DedaIngestor.validationMessage (DedaIngestor.topMissing msg)
        (DedaIngestor.topEmpty msg) "product data",
     .requiredFields (DedaIngestor.topMissing msg)
        (DedaIngestor.topEmpty msg) "product data"⟩)

/-- When a top-level field is missing or blank, `validate_required_fields`
returns the enumerating error. -/
theorem DedaIngestor.validate_required_fields_top_error
    (msg : DedaIngestor.PyDict)
    (h : DedaIngestor.topMissing msg ≠ [] ∨ DedaIngestor.topEmpty msg ≠ []) :
    DedaIngestor.validate_required_fields msg
        DedaIngestor.REQUIRED_PRODUCT_FIELDS "product data"
      = .error ⟨DedaIngestor.validationMessage (DedaIngestor.topMissing msg)
          (DedaIngestor.topEmpty msg) "product data",
        .requiredFields (DedaIngestor.topMissing msg)
          (DedaIngestor.topEmpty msg) "product data"⟩ := by
  unfold DedaIngestor.validate_required_fields
  rw [if_neg]
  · rfl
  · unfold DedaIngestor.topMissing DedaIngestor.topEmpty at h
    tauto

/-- The element loop fails at the first non-validating element, reporting
its index. -/
theorem DedaIngestor.validateElements_first_failure (start : Nat)
    (pre post : List DedaIngestor.PyVal) (d : DedaIngestor.PyDict)
    (err : DedaIngestor.AdapterError)
    (hpre : ∀ k (hk : k < pre.length), ∃ dd,
      pre.get ⟨k, hk⟩ = DedaIngestor.PyVal.vdict dd ∧
      DedaIngestor.validate_required_fields dd
        DedaIngestor.REQUIRED_ELEMENT_FIELDS
        ("product element " ++ Nat.repr (start + k + 1)) = .ok ())
    (hd : DedaIngestor.validate_required_fields d
        DedaIngestor.REQUIRED_ELEMENT_FIELDS
        ("product element " ++ Nat.repr (start + pre.length + 1))
      = .error err) :
    DedaIngestor.validateElements start
        (pre ++ DedaIngestor.PyVal.vdict d :: post)
      = .error (.adapter
          ⟨"Invalid product element at index "
              ++ Nat.repr (start + pre.length),
           .elementInvalid (start + pre.length) err.details⟩) := by
  induction pre generalizing start with
  | nil =>
      simp only [List.length_nil, Nat.add_zero] at hd ⊢
      simp [DedaIngestor.validateElements, hd]
  | cons e pre ih =>
      obtain ⟨dd, he, hok⟩ := hpre 0 (by simp)
      have he2 : e = DedaIngestor.PyVal.vdict dd := he
      subst he2
      simp only [Nat.add_zero] at hok
      simp only [List.cons_append, DedaIngestor.validateElements, hok]
      have hlen : start + (DedaIngestor.PyVal.vdict dd :: pre).length
          = start + 1 + pre.length := by
        simp
        omega
      rw [hlen] at hd ⊢
      apply ih (start + 1)
      · intro k hk
        obtain ⟨dd2, hget, hok2⟩ := hpre (k + 1) (by simpa using hk)
        refine ⟨dd2, hget, ?_⟩
        have hnat : start + (k + 1) + 1 = start + 1 + k + 1 := by omega
        rw [hnat] at hok2
        exact hok2
      · exact hd

/-- C4: `validate_input` (the validation phase of
`from_rabbitmq_message`) fails on a message with a missing or blank
top-level field with an adapter error whose details enumerate exactly the
missing and the empty fields among `productId`, `productName`,
`productElements`; in particular a message missing `productName` fails
with `productName` listed as missing at the top level, and a message with
`productElements` absent fails with a missing-required-fields error
including `productElements`; element-level failures carry the element
index; when the top-level check passes the element loop decides the
result. -/
theorem c4_validation_completeness (msg : DedaIngestor.PyDict) :
    (DedaIngestor.topMissing msg ≠ [] ∨ DedaIngestor.topEmpty msg ≠ [] →
      DedaIngestor.validate_input msg = DedaIngestor.topFailure msg)
    ∧ (pyMem msg "productName" = false →
        "productName" ∈ DedaIngestor.topMissing msg
        ∧ DedaIngestor.validate_input msg = DedaIngestor.topFailure msg)
    ∧ (pyMem msg "productElements" = false →
        "productElements" ∈ DedaIngestor.topMissing msg
        ∧ DedaIngestor.validate_input msg = DedaIngestor.topFailure msg)
    ∧ (∀ es, DedaIngestor.validate_required_fields msg
          DedaIngestor.REQUIRED_PRODUCT_FIELDS "product data" = .ok () →
        pyLookup msg "productElements"
          = some (DedaIngestor.PyVal.vlist es) →
        DedaIngestor.validate_input msg
          = DedaIngestor.validateElements 0 es)
    ∧ (∀ (pre post : List DedaIngestor.PyVal) (d : DedaIngestor.PyDict)
        (err : DedaIngestor.AdapterError),
        (∀ k (hk : k < pre.length), ∃ dd,
          pre.get ⟨k, hk⟩ = DedaIngestor.PyVal.vdict dd ∧
          DedaIngestor.validate_required_fields dd
            DedaIngestor.REQUIRED_ELEMENT_FIELDS
            ("product element " ++ Nat.repr (k + 1)) = .ok ()) →
        DedaIngestor.validate_required_fields d
            DedaIngestor.REQUIRED_ELEMENT_FIELDS
            ("product element " ++ Nat.repr (pre.length + 1))
          = .error err →
        DedaIngestor.validateElements 0
            (pre ++ DedaIngestor.PyVal.vdict d :: post)
          = .error (.adapter
              ⟨"Invalid product element at index " ++ Nat.repr pre.length,
               .elementInvalid pre.length err.details⟩)) := by
  have hfail : DedaIngestor.topMissing msg ≠ []
      ∨ DedaIngestor.topEmpty msg ≠ [] →
      DedaIngestor.validate_input msg = DedaIngestor.topFailure msg := by
    intro h
    have herr := DedaIngestor.validate_required_fields_top_error msg h
    simp [DedaIngestor.validate_input, herr, DedaIngestor.topFailure]
  refine ⟨hfail, ?_, ?_, ?_, ?_⟩
  · intro h
    have hm : "productName" ∈ DedaIngestor.topMissing msg := by
      unfold DedaIngestor.topMissing
      refine List.mem_filter.mpr ⟨?_, ?_⟩
      · unfold DedaIngestor.REQUIRED_PRODUCT_FIELDS
        simp
      · simp [h]
    exact ⟨hm, hfail (Or.inl (List.ne_nil_of_mem hm))⟩
  · intro h
    have hm : "productElements" ∈ DedaIngestor.topMissing msg := by
      unfold DedaIngestor.topMissing
      refine List.mem_filter.mpr ⟨?_, ?_⟩
      · unfold DedaIngestor.REQUIRED_PRODUCT_FIELDS
        simp
      · simp [h]
    exact ⟨hm, hfail (Or.inl (List.ne_nil_of_mem hm))⟩
  · intro es htop hlook
    simp [DedaIngestor.validate_input, htop, hlook]
  · intro pre post d err hpre hd
    have := DedaIngestor.validateElements_first_failure 0 pre post d err
      (by
        intro k hk
        obtain ⟨dd, hget, hok⟩ := hpre k hk
        refine ⟨dd, hget, ?_⟩
        simpa using hok)
      (by simpa using hd)
    simpa using this

/-- C4 witness: the theorem applied to concrete messages, one missing
`productName`, one missing `productElements`, and a concrete element
missing most required fields. -/
theorem c4_validation_completeness_witness :
    DedaIngestor.validate_input
        [("productId", .vstr "P1"), ("productElements", .vlist [])]
      = DedaIngestor.topFailure
        [("productId", .vstr "P1"), ("productElements", .vlist [])]
    ∧ "productName" ∈ DedaIngestor.topMissing
        [("productId", .vstr "P1"), ("productElements", .vlist [])]
    ∧ DedaIngestor.validate_input
        [("productId", .vstr "P1"), ("productName", .vstr "N")]
      = DedaIngestor.topFailure
        [("productId", .vstr "P1"), ("productName", .vstr "N")]
    ∧ "productElements" ∈ DedaIngestor.topMissing
        [("productId", .vstr "P1"), ("productName", .vstr "N")] := by
  have h1 := (c4_validation_completeness
    [("productId", .vstr "P1"), ("productElements", .vlist [])]).2.1 (by rfl)
  have h2 := (c4_validation_completeness
    [("productId", .vstr "P1"), ("productName", .vstr "N")]).2.2.1 (by rfl)
  exact ⟨h1.2, h1.1, h2.2, h2.1⟩

/-! ## Deda Ingestor: outbound conversion `to_ivanti_product` (claim C3)

`ProductAdapter.to_ivanti_product` (`product_adapter.py` lines 197-285)
builds the pydantic models `IvantiProduct` / `IvantiProductElement`
(`core/models.py` lines 150-181) by keyword arguments. Pydantic ignores
unknown keyword arguments and raises a validation error listing every
required model field that was not supplied; that construction rule is
embedded below together with the exact keyword names the adapter passes. -/

namespace DedaIngestor

/-- Required (defaultless) fields of the pydantic `IvantiProductElement`
model (`core/models.py` lines 150-172; `notes` and `object_reference`
have defaults). -/
def ivantiElementRequiredFields : List String :=
  ["id", "name", "type", "startup_days", "resource_unit",
   "resource_unit_qty", "resource_unit_measure", "quantity_min",
   "quantity_max", "max_discount_percentage", "startup_cost",
   "startup_margin", "startup_price", "monthly_fee_cost",
   "monthly_fee_margin", "monthly_fee_price", "extended_description",
   "profit_center", "status"]

/-- The keyword names `_to_ivanti_element` passes to the
`IvantiProductElement` constructor (`product_adapter.py` lines 258-280):
it passes `product_element=` where the model declares `name`. -/
def elementCtorKwargs : List String :=
  ["id", "product_element", "type", "startup_days", "resource_unit",
   "resource_unit_qty", "resource_unit_measure", "quantity_min",
   "quantity_max", "max_discount_percentage", "startup_cost",
   "startup_margin", "startup_price", "monthly_fee_cost",
   "monthly_fee_margin", "monthly_fee_price", "extended_description",
   "profit_center", "status", "notes", "object_reference"]

/-- Required (defaultless) fields of the pydantic `IvantiProduct` model
(`core/models.py` lines 175-181; `updated_at` has a default). -/
def ivantiProductRequiredFields : List String :=
  ["id", "name", "elements", "created_at"]

/-- The keyword names `to_ivanti_product` passes to the `IvantiProduct`
constructor (`product_adapter.py` lines 227-233): it passes `product_id=`
and `product_name=` where the model declares `id` and `name`. -/
def productCtorKwargs : List String :=
  ["product_id", "product_name", "elements", "created_at", "updated_at"]

/-- Pydantic construction: unknown keyword arguments are ignored and the
required model fields not supplied are reported missing. -/
def pydanticMissingFields (required provided : List String) : List String :=
  required.filter fun f => !(provided.contains f)

/-- The `AdapterError` family raised by `to_ivanti_product`: either the
per-element wrap `"Failed to convert element: <name>"` (lines 218-225,
wrapping the element-level pydantic failure) or the product-level wrap
`"Failed to convert product <id> to Ivanti format"` (lines 235-241). -/
inductive ConvError where
  | elementFailed (element_name : String) (missing_model_fields : List String)
  | productFailed (product_id : String) (missing_model_fields : List String)
deriving DecidableEq

/-- The Python `str()` of the raised `AdapterError`. -/
def ConvError.pyMessage : ConvError → String
  | .elementFailed name _ => "Failed to convert element: " ++ name
  | .productFailed pid _ =>
      "Failed to convert product " ++ pid ++ " to Ivanti format"

/-- The pydantic construction attempted by `_to_ivanti_element`
(`product_adapter.py` lines 258-280): succeeds exactly when every
required model field is among the passed keywords. The success payload is
unit because the required `name` field is never supplied, so no
`IvantiProductElement` value is ever constructed. -/
def toIvantiElementRaw (_e : ProductElement) : Except (List String) Unit :=
  let missing :=
    pydanticMissingFields ivantiElementRequiredFields elementCtorKwargs
  if missing = [] then .ok () else .error missing

/-- The `for element in product.product_elements` loop of
`to_ivanti_product` (`product_adapter.py` lines 212-225). -/
def elementLoop : List ProductElement → Except ConvError Unit
  | [] => .ok ()
  | e :: es =>
      match toIvantiElementRaw e with
      | .ok _ => elementLoop es
      | .error missing => .error (.elementFailed e.product_element missing)

/-- `ProductAdapter.to_ivanti_product` from `product_adapter.py` lines
197-241: convert every element, then construct the `IvantiProduct`. -/
def to_ivanti_product (p : Product) : Except ConvError Unit :=
  match elementLoop p.product_elements with
  | .error err => .error err
  | .ok _ =>
      let missing :=
        pydanticMissingFields ivantiProductRequiredFields productCtorKwargs
      if missing = [] then .ok () else .error (.productFailed p.product_id missing)

end DedaIngestor

/-- Whether a fallible computation succeeded. -/
def exceptIsOk {ε α : Type} : Except ε α → Bool
  | .ok _ => true
  | .error _ => false

/-- Shared fact: the conversion never succeeds, because the element
constructor is never given the required `name` field and the product
constructor is never given `id` or `name`. -/
theorem DedaIngestor.to_ivanti_product_never_ok (p : DedaIngestor.Product) :
    exceptIsOk (DedaIngestor.to_ivanti_product p) = false := by
  unfold DedaIngestor.to_ivanti_product
  cases hels : p.product_elements with
  | nil => rfl
  | cons e es =>
      simp [DedaIngestor.elementLoop, DedaIngestor.toIvantiElementRaw,
        DedaIngestor.pydanticMissingFields,
        DedaIngestor.ivantiElementRequiredFields,
        DedaIngestor.elementCtorKwargs, exceptIsOk]

/-! ### Claim C3 -/

/-- C3: `to_ivanti_product` never returns an `IvantiProduct` at all — the
element constructor is called with `product_element=` instead of the
required `name=` (missing model field `name`) and the product constructor
with `product_id=`/`product_name=` instead of the required `id=`/`name=`,
so pydantic rejects every construction and the adapter raises
`AdapterError` for every product, contradicting the preservation stated
by the claim and asserted by `test_to_ivanti_product`. -/
theorem c3_to_ivanti_product_always_fails :
    (∀ p : DedaIngestor.Product,
        exceptIsOk (DedaIngestor.to_ivanti_product p) = false)
    ∧ DedaIngestor.to_ivanti_product DedaIngestor.sampleProduct
        = .error (.elementFailed "Elemento Prodotto 1" ["name"])
    ∧ DedaIngestor.pydanticMissingFields
        DedaIngestor.ivantiElementRequiredFields
        DedaIngestor.elementCtorKwargs = ["name"]
    ∧ DedaIngestor.pydanticMissingFields
        DedaIngestor.ivantiProductRequiredFields
        DedaIngestor.productCtorKwargs = ["id", "name"] :=
  ⟨DedaIngestor.to_ivanti_product_never_ok, rfl, rfl, rfl⟩

/-! ## Deda Ingestor: Ivanti repository 404 semantics (claim C5)

Embedded from `repositories/ivanti_repository.py`. The HTTP layer is the
external boundary: each operation receives the per-attempt HTTP response
(status plus the error detail string `_handle_response` extracts from the
body). Operations run under the `retry_with_backoff` decorator with
`RetryConfig(max_attempts=3)` (jitter enabled by default); the repository
is modelled as already authenticated (`is_connected()` true), which the
404 claims presuppose. -/

namespace DedaIngestor

/-- An HTTP response as seen by the repository: status code and the error
detail `_handle_response` would extract from its body. -/
structure HttpResponse where
  status : Nat
  errorDetail : String := ""
deriving DecidableEq

/-- Errors raised by repository operations. -/
inductive RepoError where
  | retryableAPI (message : String) (status : Nat)
  | ivantiAPI (message : String) (status : Option Nat)
deriving DecidableEq

/-- The retryable status codes of `_handle_response`
(`ivanti_repository.py` line 168). -/
def RETRYABLE_CODES : List Nat := [408, 429, 500, 502, 503, 504]

/-- `_handle_response` from `ivanti_repository.py` lines 164-206: ok on
2xx, `RetryableAPIError` on the retryable codes, `IvantiAPIError`
otherwise. -/
def handle_response (resp : HttpResponse) (context : String) :
    Except RepoError Unit :=
  if 200 ≤ resp.status ∧ resp.status < 300 then .ok ()
  else if resp.status ∈ RETRYABLE_CODES then
    .error (.retryableAPI
      ("Retryable API error during " ++ context ++ ": " ++ resp.errorDetail)
      resp.status)
  else
    .error (.ivantiAPI
      ("API error during " ++ context ++ ": " ++ resp.errorDetail)
      (some resp.status))

/-- The retry configuration of the repository decorators
(`ivanti_repository.py` lines 208-211): `RetryConfig(max_attempts=3)`,
every other field at its default. -/
def repoRetryConfig : RetryConfig := { max_attempts := 3 }

/-- The `raise last_exception or Exception(...)` fallback of the retry
wrapper, unreachable for `max_attempts = 3`. -/
def repoNoSuccess : RepoError :=
  .ivantiAPI "Retry loop completed without success" none

/-- One attempt of `get_product` (`ivanti_repository.py` lines 208-245):
404 returns `None` before response classification; a retryable error
propagates to the retry wrapper; any other exception is re-wrapped into
`IvantiAPIError("Failed to get product <id>: ...")` with no status code.
`parse` is the outcome of `ProductAdapter.from_ivanti_response` on the
response body (its error rendered as its message string). -/
def get_product_attempt (product_id : String)
    (parse : HttpResponse → Except String (Option Product))
    (resp : HttpResponse) : Outcome RepoError (Option Product) :=
  if resp.status = 404 then .ok none
  else
    match handle_response resp ("getting product " ++ product_id) with
    | .error (.retryableAPI m s) => .retryable (.retryableAPI m s)
    | .error (.ivantiAPI m _) =>
        .fatal (.ivantiAPI
          ("Failed to get product " ++ product_id ++ ": " ++ m) none)
    | .ok _ =>
        match parse resp with
        | .ok product => .ok product
        | .error msg =>
            .fatal (.ivantiAPI
              ("Failed to get product " ++ product_id ++ ": " ++ msg) none)

/-- `get_product` under its retry decorator. -/
def get_product (product_id : String)
    (parse : HttpResponse → Except String (Option Product))
    (responses : Nat → HttpResponse) (jf : Nat → Rat) :
    RetryTrace RepoError (Option Product) :=
  retry_with_backoff repoRetryConfig jf repoNoSuccess
    (fun n => get_product_attempt product_id parse (responses n))

/-- One attempt of `delete_product` (`ivanti_repository.py` lines
353-401): 404 returns `False`; other non-2xx statuses classify as for
`get_product`; 2xx returns `True`. -/
def delete_product_attempt (product_id : String) (resp : HttpResponse) :
    Outcome RepoError Bool :=
  if resp.status = 404 then .ok false
  else
    match handle_response resp ("deleting product " ++ product_id) with
    | .error (.retryableAPI m s) => .retryable (.retryableAPI m s)
    | .error (.ivantiAPI m _) =>
        .fatal (.ivantiAPI
          ("Failed to delete product " ++ product_id ++ ": " ++ m) none)
    | .ok _ => .ok true

/-- `delete_product` under its retry decorator. -/
def delete_product (product_id : String) (responses : Nat → HttpResponse)
    (jf : Nat → Rat) : RetryTrace RepoError Bool :=
  retry_with_backoff repoRetryConfig jf repoNoSuccess
    (fun n => delete_product_attempt product_id (responses n))

/-- One attempt of `update_product` (`ivanti_repository.py` lines
295-351): the body first calls `ProductAdapter.to_ivanti_product(product)`;
an `AdapterError` there is caught by the generic handler and re-raised as
`IvantiAPIError("Failed to update product <id>: ...")` before any request
is made; only if conversion succeeded would the PUT response be examined,
with 404 returning `False`. -/
def update_product_attempt (p : Product) (resp : HttpResponse) :
    Outcome RepoError Bool :=
  match to_ivanti_product p with
  | .error err =>
      .fatal (.ivantiAPI
        ("Failed to update product " ++ p.product_id ++ ": "
          ++ err.pyMessage) none)
  | .ok _ =>
      if resp.status = 404 then .ok false
      else
        match handle_response resp ("updating product " ++ p.product_id) with
        | .error (.retryableAPI m s) => .retryable (.retryableAPI m s)
        | .error (.ivantiAPI m _) =>
            .fatal (.ivantiAPI
              ("Failed to update product " ++ p.product_id ++ ": " ++ m)
              none)
        | .ok _ => .ok true

/-- `update_product` under its retry decorator. -/
def update_product (p : Product) (responses : Nat → HttpResponse)
    (jf : Nat → Rat) : RetryTrace RepoError Bool :=
  retry_with_backoff repoRetryConfig jf repoNoSuccess
    (fun n => update_product_attempt p (responses n))

/-- A server that answers 404 to every request. -/
def notFoundResponses : Nat → HttpResponse :=
  fun _ => { status := 404, errorDetail := "Product not found" }

end DedaIngestor

/-! ### Claim C5 -/

/-- C5: on a 404 response `get_product` returns the absent value and
`delete_product` returns false, each without error after one request; but
`update_product` never reaches its 404 branch: the `to_ivanti_product`
call at the top of its body always raises (claim C3), so `update_product`
raises an `IvantiAPIError` for every product instead of returning
false — contradicting this claim and the repository's own
`test_update_product_success` test. -/
theorem c5_not_found_semantics
    (parse : DedaIngestor.HttpResponse →
      Except String (Option DedaIngestor.Product))
    (jf : Nat → Rat) (p : DedaIngestor.Product)
    (responses : Nat → DedaIngestor.HttpResponse) :
    DedaIngestor.get_product "NONEXISTENT" parse
        DedaIngestor.notFoundResponses jf
      = ⟨.ok none, 1, []⟩
    ∧ DedaIngestor.delete_product "NONEXISTENT"
        DedaIngestor.notFoundResponses jf
      = ⟨.ok false, 1, []⟩
    ∧ DedaIngestor.update_product DedaIngestor.sampleProduct
        DedaIngestor.notFoundResponses jf
      = ⟨.error (.ivantiAPI
          "Failed to update product P12345: Failed to convert element: Elemento Prodotto 1"
          none), 1, []⟩
    ∧ exceptIsOk (DedaIngestor.update_product p responses jf).result = false
    ∧ (DedaIngestor.update_product p responses jf).invocations = 1 := by
  refine ⟨rfl, rfl, rfl, ?_, ?_⟩
  · cases hconv : DedaIngestor.to_ivanti_product p with
    | ok u =>
        have := DedaIngestor.to_ivanti_product_never_ok p
        rw [hconv] at this
        exact absurd this (by simp [exceptIsOk])
    | error err =>
        simp [DedaIngestor.update_product, DedaIngestor.retry_with_backoff,
          DedaIngestor.retryLoop, DedaIngestor.update_product_attempt,
          hconv, exceptIsOk]
  · cases hconv : DedaIngestor.to_ivanti_product p with
    | ok u =>
        have := DedaIngestor.to_ivanti_product_never_ok p
        rw [hconv] at this
        exact absurd this (by simp [exceptIsOk])
    | error err =>
        simp [DedaIngestor.update_product, DedaIngestor.retry_with_backoff,
          DedaIngestor.retryLoop, DedaIngestor.update_product_attempt,
          hconv]
